import Mathlib

/-!
# Verification of the payroll core of `src/app.py`

The program is a small HR application over a sqlite database with three
tables (`employees`, `work_hours`, `adjustments`) and a pandas based payroll
computation.  Embedding conventions, chosen to match the source:

* Calendar dates are stored as ISO-8601 `TEXT` (`date.isoformat()`), and all
  comparisons the program performs on them (Python `date` comparison in
  `render_payroll_section`, SQL `BETWEEN` on the text columns) agree with
  chronological order, so dates are modelled as `Nat` day numbers.
* The `REAL` columns (`hourly_rate`, `hours`, `amount`) are modelled as `Rat`,
  the standard exact stand-in for numeric columns; the question of the binary
  floating-point representation itself is outside this model.
* A table is a list of rows in insertion order; `AUTOINCREMENT` ids are one
  more than the largest id present.  A bare `SELECT` returns rows in that
  stored (rowid) order, which is what sqlite does for these tables.
* pandas dataframes are modelled as lists of rows, and each dataframe
  operation used by the source (`merge(how="left")` with unique right keys,
  `fillna`, column arithmetic, `sort_values`) is modelled on those lists.
-/

attribute [local semireducible] Rat.add Rat.mul Rat.sub

namespace HrApp

/-- Row of the `employees` table created by `init_db` (src/app.py:20). -/
structure Employee where
  id : Nat
  full_name : String
  role_title : String
  hourly_rate : Rat
  start_date : Nat
deriving DecidableEq

/-- Row of the `work_hours` table created by `init_db` (src/app.py:31). -/
structure WorkHourEntry where
  id : Nat
  employee_id : Nat
  work_date : Nat
  hours : Rat
  notes : Option String
deriving DecidableEq

/-- Row of the `adjustments` table created by `init_db` (src/app.py:43);
`adjustment_type` is the string `"bonus"` or `"deduction"`. -/
structure AdjustmentEntry where
  id : Nat
  employee_id : Nat
  adjustment_date : Nat
  adjustment_type : String
  amount : Rat
  description : Option String
deriving DecidableEq

/-- The persistent state: the three tables of the sqlite database. -/
structure Store where
  employees : List Employee
  work_hours : List WorkHourEntry
  adjustments : List AdjustmentEntry
deriving DecidableEq

/-- `AUTOINCREMENT` primary key assignment: one more than the largest id
present. -/
def next_id (ids : List Nat) : Nat := ids.foldr max 0 + 1

/-- `add_employee` (src/app.py:57): `INSERT INTO employees`. -/
def add_employee (db : Store) (full_name role_title : String) (hourly_rate : Rat)
    (start_date : Nat) : Store :=
  { db with
    employees := db.employees ++
      [{ id := next_id (db.employees.map (·.id)), full_name, role_title,
         hourly_rate, start_date }] }

/-- `add_work_hours` (src/app.py:70): `INSERT INTO work_hours`.  The sqlite
connection returned by `get_connection` never issues `PRAGMA foreign_keys=ON`,
so the `FOREIGN KEY (employee_id)` clause declared in `init_db` is not
enforced: the insert succeeds for every `employee_id`, whether or not an
employee with that id exists. -/
def add_work_hours (db : Store) (employee_id work_date : Nat) (hours : Rat)
    (notes : Option String) : Store :=
  { db with
    work_hours := db.work_hours ++
      [{ id := next_id (db.work_hours.map (·.id)), employee_id, work_date,
         hours, notes }] }

/-- `add_adjustment` (src/app.py:83): `INSERT INTO adjustments`.  As with
`add_work_hours`, the declared foreign key is not enforced by the connection. -/
def add_adjustment (db : Store) (employee_id adjustment_date : Nat)
    (adjustment_type : String) (amount : Rat) (description : Option String) : Store :=
  { db with
    adjustments := db.adjustments ++
      [{ id := next_id (db.adjustments.map (·.id)), employee_id,
         adjustment_date, adjustment_type, amount, description }] }

/-- `work_date BETWEEN ? AND ?` / `adjustment_date BETWEEN ? AND ?`:
inclusive on both endpoints. -/
def inRange (s e d : Nat) : Bool := decide (s ≤ d) && decide (d ≤ e)

/-- The work-hour rows selected by `WHERE work_date BETWEEN s AND e`, the
filter shared by `load_work_hours` and the hours aggregation query of
`calculate_payroll`. -/
def work_hours_in_range (ws : List WorkHourEntry) (s e : Nat) : List WorkHourEntry :=
  ws.filter (fun w => inRange s e w.work_date)

/-- The adjustment rows selected by `WHERE adjustment_date BETWEEN s AND e`,
the filter shared by `load_adjustments` and the two adjustment aggregation
queries of `calculate_payroll`. -/
def adjustments_in_range (adjs : List AdjustmentEntry) (s e : Nat) : List AdjustmentEntry :=
  adjs.filter (fun a => inRange s e a.adjustment_date)

/-- The `GROUP BY employee_id` group of the hours aggregation query
(src/app.py:153): the in-range work-hour rows of one employee. -/
def hours_group (ws : List WorkHourEntry) (s e emp : Nat) : List WorkHourEntry :=
  (work_hours_in_range ws s e).filter (fun w => w.employee_id == emp)

/-- `SELECT employee_id, SUM(hours) AS total_hours ... GROUP BY employee_id`
(src/app.py:153), read off for one employee id: `none` when the employee has
no in-range row (SQL emits no group for it), otherwise the sum over the
group. -/
def hours_agg (ws : List WorkHourEntry) (s e emp : Nat) : Option Rat :=
  if hours_group ws s e emp = [] then none
  else some (((hours_group ws s e emp).map (fun w => w.hours)).sum)

/-- The `GROUP BY employee_id` group of one of the two adjustment aggregation
queries (src/app.py:164 and 176): the in-range adjustment rows of one
employee with `adjustment_type = t`. -/
def adj_group (adjs : List AdjustmentEntry) (s e : Nat) (t : String) (emp : Nat) :
    List AdjustmentEntry :=
  ((adjustments_in_range adjs s e).filter (fun a => a.adjustment_type == t)).filter
    (fun a => a.employee_id == emp)

/-- `SELECT employee_id, SUM(amount) ... WHERE ... AND adjustment_type = t
GROUP BY employee_id` (src/app.py:164, 176), read off for one employee id:
`none` when the employee has no in-range row of that kind, otherwise the sum
over the group. -/
def adj_agg (adjs : List AdjustmentEntry) (s e : Nat) (t : String) (emp : Nat) :
    Option Rat :=
  if adj_group adjs s e t emp = [] then none
  else some (((adj_group adjs s e t emp).map (fun a => a.amount)).sum)

/-- One row of the dataframe returned by `calculate_payroll`, after the final
column selection (src/app.py:200): the `id`/`employee_id` join keys are
dropped from the output. -/
structure PayrollRow where
  full_name : String
  hourly_rate : Rat
  total_hours : Rat
  gross_pay : Rat
  bonus_total : Rat
  deduction_total : Rat
  net_pay : Rat
deriving DecidableEq

/-- The merged, filled and derived payroll row of one employee
(src/app.py:188-198).

`employees.merge(hours, how="left", left_on="id", right_on="employee_id")`
keeps every employee and brings in the aggregate's `employee_id` and
`total_hours` columns, which are NULL/NaN exactly when the employee has no
in-range work-hour row.  The bonus and deduction merges then join
`on="employee_id"` - the column produced by that first merge, not the
employee's own `id`.  A NaN key matches no row of the bonus/deduction
aggregates, so for an employee without in-range work hours those aggregates
are never joined and `fillna(0)` turns them into 0 even when the employee has
in-range adjustments; the `match` on the optional hours aggregate reproduces
this.  `fillna(0)` on `total_hours` is `Option.getD 0`. -/
def payroll_row (db : Store) (s e : Nat) (emp : Employee) : PayrollRow :=
  let hours_opt := hours_agg db.work_hours s e emp.id
  let total_hours := hours_opt.getD 0
  let bonus_total :=
    match hours_opt with
    | none => (0 : Rat)
    | some _ => (adj_agg db.adjustments s e "bonus" emp.id).getD 0
  let deduction_total :=
    match hours_opt with
    | none => (0 : Rat)
    | some _ => (adj_agg db.adjustments s e "deduction" emp.id).getD 0
  let gross_pay := total_hours * emp.hourly_rate
  { full_name := emp.full_name
    hourly_rate := emp.hourly_rate
    total_hours := total_hours
    gross_pay := gross_pay
    bonus_total := bonus_total
    deduction_total := deduction_total
    net_pay := gross_pay + bonus_total - deduction_total }

/-- Code-point comparison of character lists; Python (and hence numpy/pandas
on object columns) compares strings lexicographically by code point. -/
def chars_le : List Char → List Char → Bool
  | [], _ => true
  | _ :: _, [] => false
  | a :: as1, b :: bs1 =>
    if a.toNat < b.toNat then true
    else if b.toNat < a.toNat then false
    else chars_le as1 bs1

/-- Comparison of two payroll rows by the `full_name` column. -/
def name_le (a b : PayrollRow) : Bool := chars_le a.full_name.data b.full_name.data

/-- `.sort_values("full_name")` (src/app.py:210): an ascending comparison sort
on the `full_name` column.  pandas' default `kind="quicksort"` fixes no
particular order among equal names; this model uses a stable sort, a point
the C4 analysis returns to. -/
def sort_by_name (rows : List PayrollRow) : List PayrollRow :=
  List.insertionSort (fun a b => name_le a b = true) rows

/-- The dataframe returned by `calculate_payroll` (src/app.py:145-210): empty
when the roster is empty (src/app.py:150), otherwise one merged row per
employee of the roster, sorted by `full_name`. -/
def payroll_rows (db : Store) (s e : Nat) : List PayrollRow :=
  if db.employees = [] then []
  else sort_by_name (db.employees.map (payroll_row db s e))

/-- `calculate_payroll` in state-passing form: the function only runs `SELECT`
queries against the store, so the store comes back unchanged alongside the
report dataframe. -/
def calculate_payroll (db : Store) (s e : Nat) : Store × List PayrollRow :=
  (db, payroll_rows db s e)

/-- `load_work_hours` (src/app.py:112): `JOIN employees ON employees.id =
work_hours.employee_id` (an inner join, dropping rows whose `employee_id`
matches no employee), `WHERE work_date BETWEEN ? AND ?`, `ORDER BY work_date`.
The result is modelled as the list of matching `work_hours` rows; the joined
`full_name` column is determined by the store and carries no extra
information. -/
def load_work_hours (db : Store) (s e : Nat) : List WorkHourEntry :=
  List.insertionSort (fun a b => a.work_date ≤ b.work_date)
    (work_hours_in_range
      (db.work_hours.filter (fun w => db.employees.any (fun emp => emp.id == w.employee_id)))
      s e)

/-- `load_adjustments` (src/app.py:128): the same shape as `load_work_hours`
over the `adjustments` table, ordered by `adjustment_date`. -/
def load_adjustments (db : Store) (s e : Nat) : List AdjustmentEntry :=
  List.insertionSort (fun a b => a.adjustment_date ≤ b.adjustment_date)
    (adjustments_in_range
      (db.adjustments.filter (fun a => db.employees.any (fun emp => emp.id == a.employee_id)))
      s e)

/-- `render_payroll_section` (src/app.py:279-300): when `start_date >
end_date` it shows an error and returns before any payroll query runs
(src/app.py:291-293); `none` models that rejected path, `some` the rendered
report. -/
def render_payroll_section (db : Store) (s e : Nat) : Option (List PayrollRow) :=
  if s > e then none
  else some (payroll_rows db s e)

end HrApp

namespace HrApp

/-- Sample employee used for concrete evaluations. -/
def empAna : Employee :=
  { id := 1, full_name := "Ana", role_title := "Dev", hourly_rate := 10, start_date := 0 }

/-- Second sample employee; has no entries dated inside `[1, 2]`. -/
def empBob : Employee :=
  { id := 2, full_name := "Bob", role_title := "Ops", hourly_rate := 7, start_date := 0 }

/-- Sample work-hour entry of `empAna`, dated 3. -/
def whW : WorkHourEntry :=
  { id := 1, employee_id := 1, work_date := 3, hours := 8, notes := none }

/-- Sample deduction of `empBob`, dated 8. -/
def adjW : AdjustmentEntry :=
  { id := 2, employee_id := 2, adjustment_date := 8, adjustment_type := "deduction",
    amount := 5, description := none }

/-- Sample store: two employees, hours and adjustments dated 3, 5, 8 and 9. -/
def dbW : Store :=
  { employees := [empAna, empBob]
    work_hours := [whW, { id := 2, employee_id := 2, work_date := 9, hours := 4, notes := none }]
    adjustments := [{ id := 1, employee_id := 1, adjustment_date := 5,
                      adjustment_type := "bonus", amount := 50, description := none }, adjW] }

/-- `dbW` extended with one work-hour entry and one adjustment dated outside
`[3, 8]`. -/
def dbWx : Store :=
  { dbW with
    work_hours := dbW.work_hours ++
      [{ id := 3, employee_id := 1, work_date := 20, hours := 6, notes := none }]
    adjustments := dbW.adjustments ++
      [{ id := 3, employee_id := 1, adjustment_date := 2, adjustment_type := "bonus",
         amount := 9, description := none }] }

/-- Store exhibiting the adjustment-merge defect: one employee who works only
on day 1 but receives bonuses on day 1 and day 2. -/
def db6 : Store :=
  { employees := [empAna]
    work_hours := [{ id := 1, employee_id := 1, work_date := 1, hours := 8, notes := none }]
    adjustments := [{ id := 1, employee_id := 1, adjustment_date := 1,
                      adjustment_type := "bonus", amount := 50, description := none },
                    { id := 2, employee_id := 1, adjustment_date := 2,
                      adjustment_type := "bonus", amount := 50, description := none }] }

/-- Every row of the report comes from some employee of the roster via the
merge-and-derive step. -/
theorem mem_payroll_rows {db : Store} {s e : Nat} {row : PayrollRow}
    (h : row ∈ payroll_rows db s e) :
    ∃ emp, emp ∈ db.employees ∧ row = payroll_row db s e emp := by
  rw [payroll_rows] at h
  split at h
  · exact absurd h (List.not_mem_nil row)
  · rw [sort_by_name, List.mem_insertionSort] at h
    obtain ⟨emp, hemp, heq⟩ := List.mem_map.mp h
    exact ⟨emp, hemp, heq.symm⟩

/-- C1: every employee row produced by `calculate_payroll` satisfies
`gross_pay = total_hours * hourly_rate` and
`net_pay = gross_pay + bonus_total - deduction_total`, exactly (the two
column assignments of src/app.py:195-198 read back from the row itself). -/
theorem payroll_row_formula (db : Store) (s e : Nat) (row : PayrollRow)
    (hmem : row ∈ payroll_rows db s e) :
    row.gross_pay = row.total_hours * row.hourly_rate ∧
    row.net_pay = row.gross_pay + row.bonus_total - row.deduction_total := by
  obtain ⟨emp, -, rfl⟩ := mem_payroll_rows hmem
  exact ⟨rfl, rfl⟩

/-- Witness for C1 at a concrete store, range and row. -/
theorem payroll_row_formula_witness :
    payroll_row dbW 3 8 empAna ∈ payroll_rows dbW 3 8 ∧
    ((payroll_row dbW 3 8 empAna).gross_pay =
        (payroll_row dbW 3 8 empAna).total_hours * (payroll_row dbW 3 8 empAna).hourly_rate ∧
      (payroll_row dbW 3 8 empAna).net_pay =
        (payroll_row dbW 3 8 empAna).gross_pay + (payroll_row dbW 3 8 empAna).bonus_total -
          (payroll_row dbW 3 8 empAna).deduction_total) :=
  ⟨by decide, payroll_row_formula dbW 3 8 _ (by decide)⟩

/-- C2: for a non-empty roster the report has exactly one row per roster
employee (the rows are a permutation of the per-employee merged rows - a left
join from the roster, never an inner join), and an employee with no in-range
work-hour entry and no in-range adjustment entry still gets a fully
zero-filled row. -/
theorem payroll_left_join_total (db : Store) (s e : Nat) (hne : db.employees ≠ []) :
    (payroll_rows db s e).Perm (db.employees.map (payroll_row db s e)) ∧
    ∀ emp ∈ db.employees,
      (∀ w ∈ db.work_hours, w.employee_id = emp.id → inRange s e w.work_date = false) →
      (∀ a ∈ db.adjustments, a.employee_id = emp.id → inRange s e a.adjustment_date = false) →
      payroll_row db s e emp =
        { full_name := emp.full_name, hourly_rate := emp.hourly_rate, total_hours := 0,
          gross_pay := 0, bonus_total := 0, deduction_total := 0, net_pay := 0 } := by
  constructor
  · rw [payroll_rows, if_neg hne, sort_by_name]
    exact List.perm_insertionSort _ _
  · intro emp _ hw _
    have hg : hours_group db.work_hours s e emp.id = [] := by
      rw [hours_group, List.filter_eq_nil_iff]
      intro w hwmem hbeq
      rw [work_hours_in_range, List.mem_filter] at hwmem
      have hfalse := hw w hwmem.1 (by simpa using hbeq)
      rw [hfalse] at hwmem
      exact absurd hwmem.2 (by simp)
    simp [payroll_row, hours_agg, hg, zero_mul]

/-- Witness for C2: `dbW` over `[1, 2]`, a range containing none of its
entries; `empBob` gets the zero row. -/
theorem payroll_left_join_total_witness :
    dbW.employees ≠ [] ∧
    (payroll_rows dbW 1 2).Perm (dbW.employees.map (payroll_row dbW 1 2)) ∧
    payroll_row dbW 1 2 empBob =
      { full_name := empBob.full_name, hourly_rate := empBob.hourly_rate, total_hours := 0,
        gross_pay := 0, bonus_total := 0, deduction_total := 0, net_pay := 0 } :=
  ⟨by decide, (payroll_left_join_total dbW 1 2 (by decide)).1,
    (payroll_left_join_total dbW 1 2 (by decide)).2 empBob (by decide) (by decide) (by decide)⟩

/-- C3: a reversed range (`start_date > end_date`) is rejected by
`render_payroll_section` before any payroll query runs: an error is shown and
no report is produced. -/
theorem reversed_range_rejected (db : Store) (s e : Nat) (h : s > e) :
    render_payroll_section db s e = none := by
  rw [render_payroll_section, if_pos h]

/-- Witness for C3 at a concrete store and reversed range. -/
theorem reversed_range_rejected_witness :
    (5 : Nat) > 2 ∧ render_payroll_section dbW 5 2 = none :=
  ⟨by decide, reversed_range_rejected dbW 5 2 (by decide)⟩

/-- C5 evaluation: the code accepts writes that reference a non-existent
employee.  On the empty store (no employees at all), `add_work_hours` and
`add_adjustment` with `employee_id = 999` succeed and append the row: the
`FOREIGN KEY` clauses of `init_db` are never enforced because the connection
does not enable `PRAGMA foreign_keys`, and no `ReferentialIntegrityError`
exists anywhere in the program. -/
theorem writes_accept_missing_employee :
    (add_work_hours { employees := [], work_hours := [], adjustments := [] } 999 5 8
        none).work_hours =
      [{ id := 1, employee_id := 999, work_date := 5, hours := 8, notes := none }] ∧
    (add_adjustment { employees := [], work_hours := [], adjustments := [] } 999 5 "bonus" 50
        none).adjustments =
      [{ id := 1, employee_id := 999, adjustment_date := 5, adjustment_type := "bonus",
         amount := 50, description := none }] :=
  ⟨rfl, rfl⟩

/-- C6 evaluation: the per-employee `bonus_total` is NOT additive over a
partition of the range.  In `db6`, `[1, 1]` and `[2, 2]` partition `[1, 2]`,
yet the full-range bonus total is 100 while the two sub-range reports yield
50 and 0: over `[2, 2]` the employee has no work-hour row, so the hours merge
key is NULL and the day-2 bonus is dropped by the `on="employee_id"` merge. -/
theorem bonus_total_not_partition_additive :
    (payroll_rows db6 1 2).map PayrollRow.bonus_total = [100] ∧
    (payroll_rows db6 1 1).map PayrollRow.bonus_total = [50] ∧
    (payroll_rows db6 2 2).map PayrollRow.bonus_total = [0] ∧
    ((payroll_rows db6 1 1).map PayrollRow.bonus_total).sum +
        ((payroll_rows db6 2 2).map PayrollRow.bonus_total).sum ≠
      ((payroll_rows db6 1 2).map PayrollRow.bonus_total).sum :=
  ⟨by decide, by decide, by decide, by decide⟩

/-- C7: every range-filtered read is inclusive of both endpoints: a work-hour
or adjustment entry dated exactly `s` or exactly `e` appears in
`load_work_hours`/`load_adjustments` (granted its employee exists, since
those queries inner-join `employees`) and belongs to the group its
aggregation query sums, so the aggregate for its employee is present
(non-`none`). -/
theorem range_reads_inclusive (db : Store) (s e : Nat) (hse : s ≤ e)
    (w : WorkHourEntry) (hw : w ∈ db.work_hours)
    (hwd : w.work_date = s ∨ w.work_date = e)
    (hwex : ∃ emp ∈ db.employees, emp.id = w.employee_id)
    (a : AdjustmentEntry) (ha : a ∈ db.adjustments)
    (had : a.adjustment_date = s ∨ a.adjustment_date = e)
    (haex : ∃ emp ∈ db.employees, emp.id = a.employee_id) :
    w ∈ load_work_hours db s e ∧ a ∈ load_adjustments db s e ∧
    w ∈ hours_group db.work_hours s e w.employee_id ∧
    a ∈ adj_group db.adjustments s e a.adjustment_type a.employee_id ∧
    hours_agg db.work_hours s e w.employee_id ≠ none ∧
    adj_agg db.adjustments s e a.adjustment_type a.employee_id ≠ none := by
  have hinw : inRange s e w.work_date = true := by
    rcases hwd with h | h <;> simp [inRange, h, hse]
  have hina : inRange s e a.adjustment_date = true := by
    rcases had with h | h <;> simp [inRange, h, hse]
  have hwg : w ∈ hours_group db.work_hours s e w.employee_id := by
    rw [hours_group, List.mem_filter]
    exact ⟨by rw [work_hours_in_range, List.mem_filter]; exact ⟨hw, hinw⟩, by simp⟩
  have hag : a ∈ adj_group db.adjustments s e a.adjustment_type a.employee_id := by
    rw [adj_group, List.mem_filter]
    refine ⟨?_, by simp⟩
    rw [List.mem_filter]
    refine ⟨?_, by simp⟩
    rw [adjustments_in_range, List.mem_filter]
    exact ⟨ha, hina⟩
  refine ⟨?_, ?_, hwg, hag, ?_, ?_⟩
  · rw [load_work_hours, List.mem_insertionSort, work_hours_in_range, List.mem_filter]
    refine ⟨?_, hinw⟩
    rw [List.mem_filter]
    refine ⟨hw, ?_⟩
    rw [List.any_eq_true]
    obtain ⟨emp, hemp, heq⟩ := hwex
    exact ⟨emp, hemp, by simp [heq]⟩
  · rw [load_adjustments, List.mem_insertionSort, adjustments_in_range, List.mem_filter]
    refine ⟨?_, hina⟩
    rw [List.mem_filter]
    refine ⟨ha, ?_⟩
    rw [List.any_eq_true]
    obtain ⟨emp, hemp, heq⟩ := haex
    exact ⟨emp, hemp, by simp [heq]⟩
  · rw [hours_agg, if_neg (List.ne_nil_of_mem hwg)]
    exact Option.some_ne_none _
  · rw [adj_agg, if_neg (List.ne_nil_of_mem hag)]
    exact Option.some_ne_none _

/-- Witness for C7: in `dbW` over `[3, 8]`, the work-hour entry dated exactly
3 (the start) and the adjustment dated exactly 8 (the end) are read and
aggregated. -/
theorem range_reads_inclusive_witness :
    (3 : Nat) ≤ 8 ∧
    (whW ∈ load_work_hours dbW 3 8 ∧ adjW ∈ load_adjustments dbW 3 8 ∧
      whW ∈ hours_group dbW.work_hours 3 8 whW.employee_id ∧
      adjW ∈ adj_group dbW.adjustments 3 8 adjW.adjustment_type adjW.employee_id ∧
      hours_agg dbW.work_hours 3 8 whW.employee_id ≠ none ∧
      adj_agg dbW.adjustments 3 8 adjW.adjustment_type adjW.employee_id ≠ none) :=
  ⟨by decide,
    range_reads_inclusive dbW 3 8 (by decide) whW (by decide) (Or.inl (by decide)) (by decide)
      adjW (by decide) (Or.inr (by decide)) (by decide)⟩

/-- C8: `calculate_payroll` is read-only: all three collections of the store
are unchanged by the call (it only executes `SELECT` queries). -/
theorem calculate_payroll_read_only (db : Store) (s e : Nat) :
    (calculate_payroll db s e).1.employees = db.employees ∧
    (calculate_payroll db s e).1.work_hours = db.work_hours ∧
    (calculate_payroll db s e).1.adjustments = db.adjustments :=
  ⟨rfl, rfl, rfl⟩

/-- C10: entries dated outside the requested range never influence the
report: two stores with the same roster and the same in-range work-hour and
adjustment rows produce identical reports. -/
theorem payroll_ignores_out_of_range_entries (db1 db2 : Store) (s e : Nat)
    (hemp : db1.employees = db2.employees)
    (hwh : work_hours_in_range db1.work_hours s e = work_hours_in_range db2.work_hours s e)
    (hadj : adjustments_in_range db1.adjustments s e = adjustments_in_range db2.adjustments s e) :
    payroll_rows db1 s e = payroll_rows db2 s e := by
  have hrow : payroll_row db1 s e = payroll_row db2 s e := by
    funext emp
    simp only [payroll_row, hours_agg, hours_group, adj_agg, adj_group, hwh, hadj]
  rw [payroll_rows, payroll_rows, hemp, hrow]

/-- Witness for C10: `dbWx` extends `dbW` only by entries dated outside
`[3, 8]`; the two stores differ, the reports over `[3, 8]` do not. -/
theorem payroll_ignores_out_of_range_entries_witness :
    (dbW.employees = dbWx.employees ∧
      work_hours_in_range dbW.work_hours 3 8 = work_hours_in_range dbWx.work_hours 3 8 ∧
      adjustments_in_range dbW.adjustments 3 8 = adjustments_in_range dbWx.adjustments 3 8 ∧
      dbW ≠ dbWx) ∧
    payroll_rows dbW 3 8 = payroll_rows dbWx 3 8 :=
  ⟨⟨by decide, by decide, by decide, by decide⟩,
    payroll_ignores_out_of_range_entries dbW dbWx 3 8 (by decide) (by decide) (by decide)⟩

end HrApp
